import Mathlib

/-!
Shallow embedding of the cashflow / appreciation analysis engine of
`scripts/appreciation_and_cashflow_analyzer.py`.

Modelling conventions:
* Python floats are modelled as exact rationals (`ℚ`); every numeric claim that
  the spec states "within floating-point tolerance" is stated with an explicit
  rational tolerance.
* A Python function that can let an exception propagate is modelled with
  `Except PyError _`; `Except.error` is a raised exception, `Except.ok` a
  normal return (Python `return None` becomes `Except.ok Option.none`).
* Rational division in Lean is total with `x / 0 = 0`; the source can raise
  `ZeroDivisionError` only on inputs outside every claim's domain (for example
  a fixed-rate loan with a zero term), and each such spot is guarded in the
  source exactly as written here.
* Optional CLI/DB strings are `Option String`; Python truthiness of a string
  (`None` and `""` are falsy) is `strTruthy`.
-/

/-- Python exception propagating out of an engine function.  `nameError s`
models `NameError: name 's' is not defined`. -/
inductive PyError where
  | nameError (name : String) : PyError
deriving DecidableEq

/-- Python `str.lower()` (the source only ever lower-cases ASCII condition
names, neighborhood names and city names). -/
def pyLower (s : String) : String := String.mk (s.data.map Char.toLower)

/-- Python truthiness of an optional string: `None` and the empty string are
falsy, every other string is truthy. -/
def strTruthy : Option String → Bool
  | none => false
  | some s => !s.isEmpty

/-- Python `str.replace(old, new)` for single-character `old` and `new`
(the only shape the source uses: underscores and spaces). -/
def pyReplaceChar (old new : Char) (s : String) : String :=
  String.mk (s.data.map (fun c => if c == old then new else c))

/-- Age multiplier step function, from `get_age_multiplier` (source lines
61-66): age≤5 → 0.6, ≤15 → 0.9, ≤30 → 1.1, ≤50 → 1.3, else 1.5. -/
def get_age_multiplier (age : ℤ) : ℚ :=
  if age ≤ 5 then 3/5
  else if age ≤ 15 then 9/10
  else if age ≤ 30 then 11/10
  else if age ≤ 50 then 13/10
  else 3/2

/-- The `CONDITION_MULTIPLIERS` dict lookup `CONDITION_MULTIPLIERS.get(key, 1.0)`
(source lines 55-57): excellent → 0.7, good → 1.0, fair → 1.3, poor → 1.7,
anything else → the default 1.0.  The caller lower-cases the key first. -/
def condition_multipliers_get (key : String) : ℚ :=
  if key = "excellent" then 7/10
  else if key = "good" then 1
  else if key = "fair" then 13/10
  else if key = "poor" then 17/10
  else 1

/-- One entry of the `CAPEX_COMPONENTS` table: lifespan in years, optional
flat base cost, optional cost per square foot. -/
structure CapexSpec where
  lifespan : ℚ
  cost_base : Option ℚ
  cost_per_sqft : Option ℚ
deriving DecidableEq

/-- The `CAPEX_COMPONENTS` table (source lines 38-52), in source order. -/
def CAPEX_COMPONENTS : List (String × CapexSpec) :=
  [ ("roof", ⟨25, none, some (11/2)⟩),
    ("hvac", ⟨18, some 4500, some (3/2)⟩),
    ("water_heater", ⟨10, some 900, none⟩),
    ("electrical", ⟨35, some 1800, none⟩),
    ("plumbing", ⟨45, none, some 2⟩),
    ("flooring", ⟨10, none, some (7/2)⟩),
    ("appliances", ⟨12, some 3000, none⟩),
    ("bathroom_fixtures", ⟨18, some 1000, none⟩),
    ("interior_paint", ⟨6, none, some 1⟩),
    ("cabinets", ⟨18, none, some (5/4)⟩),
    ("exterior_paint", ⟨8, none, some (3/2)⟩),
    ("windows", ⟨20, none, some (7/4)⟩),
    ("driveway", ⟨25, some 3000, none⟩) ]

/-- Per-component result of `calculate_capex_reserves`. -/
structure CompReserve where
  replacement_cost : ℚ
  lifespan_years : ℚ
  annual_reserve : ℚ
  monthly_reserve : ℚ
deriving DecidableEq

/-- The dictionary returned by `calculate_capex_reserves`. -/
structure CapexReserves where
  components : List (String × CompReserve)
  total_annual : ℚ
  total_monthly : ℚ
  percent_of_value : ℚ
deriving DecidableEq

/-- Per-component body of the loop in `calculate_capex_reserves` (source lines
237-255).  `repl_cost` follows the source exactly: with a `cost_per_sqft`
entry, the sqft term contributes only when `sqft` is a positive number
(Python `if sqft and sqft > 0`), and a `cost_base` entry is added on top;
with only `cost_base`, that alone is used. -/
def capex_component_reserve (sqft : Option ℚ) (cond_mult age_mult : ℚ)
    (d : CapexSpec) : CompReserve :=
  let adj_lifespan := d.lifespan * (1 / cond_mult)
  let repl_cost : ℚ :=
    match d.cost_per_sqft with
    | some cps =>
      (match sqft with
       | some s => if s > 0 then cps * s else 0
       | none => 0) + (d.cost_base.getD 0)
    | none => d.cost_base.getD 0
  let adj_cost := repl_cost * cond_mult * age_mult
  let annual_res := if adj_lifespan > 0 then adj_cost / adj_lifespan else 0
  ⟨adj_cost, adj_lifespan, annual_res, annual_res / 12⟩

/-- The `calculate_capex_reserves` function (source lines 228-259). -/
def calculate_capex_reserves (purchase_price : ℚ) (sqft : Option ℚ)
    (age : ℤ) (condition : String) : CapexReserves :=
  let age_mult := get_age_multiplier age
  let cond_mult := condition_multipliers_get (pyLower condition)
  let comps := CAPEX_COMPONENTS.map
    (fun p => (p.1, capex_component_reserve sqft cond_mult age_mult p.2))
  let total_annual := (comps.map (fun p => p.2.annual_reserve)).sum
  ⟨comps, total_annual, total_annual / 12,
    if purchase_price > 0 then (total_annual / purchase_price) * 100 else 0⟩

/-- The `calculate_mortgage_payment` function (source lines 220-226): the
fixed-rate annuity formula, with principal ≤ 0 → 0 and the zero-rate
straight-line branch guarded against a zero term. -/
def calculate_mortgage_payment (principal annual_rate_percent : ℚ)
    (term_years : ℕ) : ℚ :=
  if principal ≤ 0 then 0 else
  let monthly_rate := (annual_rate_percent / 100) / 12
  let num_payments : ℕ := term_years * 12
  if monthly_rate = 0 then
    (if num_payments > 0 then principal / (num_payments : ℚ) else 0)
  else
    principal * (monthly_rate * (1 + monthly_rate) ^ num_payments) /
      ((1 + monthly_rate) ^ num_payments - 1)

/-- Character class `[\d,]` of the tax regex. -/
def isDigitOrComma (c : Char) : Bool := c.isDigit || c == ','

/-- Greedy `[\d,]*` run: the matched run and the remaining characters. -/
def takeDigitsCommas : List Char → List Char × List Char
  | [] => ([], [])
  | c :: cs =>
    if isDigitOrComma c then
      let p := takeDigitsCommas cs
      (c :: p.1, p.2)
    else ([], c :: cs)

/-- Greedy `\d*` run: the matched run and the remaining characters. -/
def takeDigits : List Char → List Char × List Char
  | [] => ([], [])
  | c :: cs =>
    if c.isDigit then
      let p := takeDigits cs
      (c :: p.1, p.2)
    else ([], c :: cs)

/-- Capture group of `\$?([\d,]+(?:\.\d+)?)` once the scanner stands on a
`[\d,]` character: the greedy `[\d,]+` run, then an optional `.` followed by
at least one digit. -/
def taxGroupAt (cs : List Char) : List Char :=
  let p := takeDigitsCommas cs
  match p.2 with
  | '.' :: r2 =>
    let f := takeDigits r2
    if f.1.isEmpty then p.1 else p.1 ++ '.' :: f.1
  | _ => p.1

/-- Leftmost match of `re.search(r'\$?([\d,]+(?:\.\d+)?)', s)`, returning the
capture group: the first position whose character is in `[\d,]`, or a `$`
immediately followed by a `[\d,]` character, starts the match. -/
def findTaxGroup : List Char → Option (List Char)
  | [] => none
  | c :: cs =>
    if isDigitOrComma c then some (taxGroupAt (c :: cs))
    else if c == '$' then
      match cs with
      | d :: _ => if isDigitOrComma d then some (taxGroupAt cs) else findTaxGroup cs
      | [] => none
    else findTaxGroup cs

/-- Numeric value of a digit run. -/
def digitsVal (ds : List Char) : ℕ := ds.foldl (fun a c => a * 10 + (c.toNat - 48)) 0

/-- Python `float()` applied to the capture group with commas removed.  The
input is digits with at most one dot and, when a dot is present, at least one
digit after it; `float("")` raises `ValueError`, which the source catches and
turns into `None`. -/
def pyFloatParse (cs : List Char) : Option ℚ :=
  let intPart := cs.takeWhile (fun c => c.isDigit)
  let rest := cs.drop intPart.length
  match rest with
  | [] => if intPart.isEmpty then none else some (digitsVal intPart)
  | '.' :: frac =>
    if intPart.isEmpty && frac.isEmpty then none
    else some ((digitsVal intPart : ℚ) + (digitsVal frac : ℚ) / 10 ^ frac.length)
  | _ => none

/-- The `parse_tax_amount` function (source lines 209-218): falsy input (no
string, or the empty string) gives `None`; otherwise the first
dollar-amount-like numeral is extracted and parsed with commas removed. -/
def parse_tax_amount (tax_info_str : Option String) : Option ℚ :=
  if !strTruthy tax_info_str then none
  else
    match findTaxGroup (tax_info_str.getD "").data with
    | none => none
    | some g => pyFloatParse (g.filter (fun c => c != ','))

/-- The dictionary returned by `calculate_financial_components` (source lines
327-345), field for field.  `loan_term_years` is the CLI integer loan term
(a year count); `property_age` the integer age. -/
structure FinComponents where
  purchase_price : ℚ
  down_payment_amount : ℚ
  down_payment_percentage : ℚ
  loan_amount : ℚ
  annual_interest_rate_percent : ℚ
  loan_term_years : ℕ
  annual_insurance_cost : Option ℚ
  misc_monthly_cost : ℚ
  tax_info_raw : Option String
  estimated_monthly_rent : ℚ
  monthly_p_and_i : ℚ
  annual_taxes : Option ℚ
  monthly_taxes : ℚ
  monthly_insurance : ℚ
  vacancy_rate_percent : Option ℚ
  effective_rent_after_vacancy : ℚ
  property_mgmt_fee_percent : Option ℚ
  monthly_property_mgmt : ℚ
  maintenance_percent : ℚ
  adjusted_maintenance_percent : Option ℚ
  monthly_maintenance : ℚ
  capex_percent : ℚ
  adjusted_capex_percent : Option ℚ
  monthly_capex : ℚ
  capex_reserve_details : Option CapexReserves
  utilities_monthly : ℚ
  total_monthly_expenses : ℚ
  net_monthly_cashflow : ℚ
  annual_cashflow : ℚ
  cash_on_cash_roi : ℚ
  annual_noi : Option ℚ
  cap_rate : Option ℚ
  property_age : ℤ
  property_condition : String
  square_feet : Option ℚ
  use_dynamic_capex : Bool
deriving DecidableEq

/-- The `calculate_financial_components` function (source lines 261-345).
A missing or non-positive purchase price prints an error and returns `None`
(`Except.ok Option.none` here); the function raises no exception on this
domain, so no `Except.error` value is ever produced.  Down payments above the
price or below zero are clamped.  All dynamic-mode quantities are zero and
excluded from the expense total when `use_dynamic_capex` is false. -/
def calculate_financial_components
    (purchase_price : Option ℚ) (tax_info_raw : Option String)
    (est_monthly_rent : Option ℚ) (down_payment_dollars annual_rate_percent : ℚ)
    (loan_term_years : ℕ) (annual_insurance : Option ℚ)
    (misc_monthly vacancy_rate_pct property_mgmt_fee_pct maintenance_pct
      capex_pct utilities_monthly : ℚ)
    (use_dynamic_capex : Bool) (prop_age : ℤ) (prop_cond : String)
    (sq_ft : Option ℚ) : Except PyError (Option FinComponents) :=
  match purchase_price with
  | none => Except.ok none
  | some price =>
    if price ≤ 0 then Except.ok none else
    let eff_rent := est_monthly_rent.getD 0
    let dp_amount :=
      if down_payment_dollars > price then price
      else if down_payment_dollars < 0 then 0
      else down_payment_dollars
    let loan_amt := price - dp_amount
    let dp_pct := if price > 0 then (dp_amount / price) * 100 else 0
    let p_and_i := calculate_mortgage_payment loan_amt annual_rate_percent loan_term_years
    let annual_tax := parse_tax_amount tax_info_raw
    let monthly_tax := match annual_tax with | some t => t / 12 | none => 0
    let monthly_ins := match annual_insurance with | some i => i / 12 | none => 0
    let eff_rent_after_vacancy :=
      if use_dynamic_capex then eff_rent * (1 - vacancy_rate_pct / 100) else eff_rent
    let monthly_prop_mgmt :=
      if use_dynamic_capex then eff_rent_after_vacancy * (property_mgmt_fee_pct / 100) else 0
    let adj_maint_pct :=
      if use_dynamic_capex then
        maintenance_pct * get_age_multiplier prop_age *
          condition_multipliers_get (pyLower prop_cond)
      else maintenance_pct
    let monthly_maint :=
      if use_dynamic_capex then (price * (adj_maint_pct / 100)) / 12 else 0
    let capex_details :=
      if use_dynamic_capex then some (calculate_capex_reserves price sq_ft prop_age prop_cond)
      else none
    let monthly_capex_val := match capex_details with | some d => d.total_monthly | none => 0
    let adj_capex_pct :=
      match capex_details with | some d => d.percent_of_value | none => capex_pct
    let total_monthly_exp := p_and_i + monthly_tax + monthly_ins + misc_monthly +
      (if use_dynamic_capex then
        monthly_prop_mgmt + monthly_maint + monthly_capex_val + utilities_monthly
       else 0)
    let net_monthly_cashflow := eff_rent_after_vacancy - total_monthly_exp
    let annual_cashflow := net_monthly_cashflow * 12
    let coc_roi := if dp_amount > 0 then (annual_cashflow / dp_amount) * 100 else 0
    let op_expenses_annual := (monthly_tax + monthly_ins + monthly_prop_mgmt +
      monthly_maint + monthly_capex_val + utilities_monthly + misc_monthly) * 12
    let annual_noi :=
      if use_dynamic_capex then some (eff_rent_after_vacancy * 12 - op_expenses_annual)
      else none
    let cap_rate :=
      if use_dynamic_capex then
        some (if price > 0 then ((eff_rent_after_vacancy * 12 - op_expenses_annual) / price) * 100 else 0)
      else none
    Except.ok (some
      { purchase_price := price
        down_payment_amount := dp_amount
        down_payment_percentage := dp_pct
        loan_amount := loan_amt
        annual_interest_rate_percent := annual_rate_percent
        loan_term_years := loan_term_years
        annual_insurance_cost := annual_insurance
        misc_monthly_cost := misc_monthly
        tax_info_raw := tax_info_raw
        estimated_monthly_rent := eff_rent
        monthly_p_and_i := p_and_i
        annual_taxes := annual_tax
        monthly_taxes := monthly_tax
        monthly_insurance := monthly_ins
        vacancy_rate_percent := if use_dynamic_capex then some vacancy_rate_pct else none
        effective_rent_after_vacancy := eff_rent_after_vacancy
        property_mgmt_fee_percent := if use_dynamic_capex then some property_mgmt_fee_pct else none
        monthly_property_mgmt := if use_dynamic_capex then monthly_prop_mgmt else 0
        maintenance_percent := maintenance_pct
        adjusted_maintenance_percent := if use_dynamic_capex then some adj_maint_pct else none
        monthly_maintenance := if use_dynamic_capex then monthly_maint else 0
        capex_percent := capex_pct
        adjusted_capex_percent := if use_dynamic_capex then some adj_capex_pct else none
        monthly_capex := if use_dynamic_capex then monthly_capex_val else 0
        capex_reserve_details := capex_details
        utilities_monthly := if use_dynamic_capex then utilities_monthly else 0
        total_monthly_expenses := total_monthly_exp
        net_monthly_cashflow := net_monthly_cashflow
        annual_cashflow := annual_cashflow
        cash_on_cash_roi := coc_roi
        annual_noi := annual_noi
        cap_rate := cap_rate
        property_age := prop_age
        property_condition := prop_cond
        square_feet := sq_ft
        use_dynamic_capex := use_dynamic_capex })

/-- One joined row of `neighborhood_appreciation JOIN neighborhood_data` in
`neighborhood_analysis.db` (source lines 421-428): the metric type, the
property type, the reliability count `homes_sold`, the city and neighborhood
names, the period end (dates compare as a linear order; modelled as an
integer ordinal) and the possibly-NULL metric value. -/
structure HistRow where
  metric_type : String
  property_type : String
  homes_sold : ℤ
  city : String
  neighborhood_name : String
  period_end : ℤ
  value : Option ℚ
deriving DecidableEq

/-- The `valid_metrics` allow-list (source lines 406-413). -/
def valid_metrics : List String :=
  [ "median_sale_price_ptp_appreciation", "median_ppsf_ptp_appreciation",
    "median_sale_price_quarterly_appreciation", "median_ppsf_quarterly_appreciation",
    "median_sale_price_annual_appreciation", "median_ppsf_annual_appreciation",
    "median_sale_price_3_year_cagr_appreciation", "median_ppsf_3_year_cagr_appreciation",
    "median_sale_price_5_year_cagr_appreciation", "median_ppsf_5_year_cagr_appreciation",
    "median_sale_price_10_year_cagr_appreciation", "median_ppsf_10_year_cagr_appreciation" ]

/-- Booleans: does `pat` occur at the start of `s`? -/
def listHasPre (pat s : List Char) : Bool :=
  match pat, s with
  | [], _ => true
  | _ :: _, [] => false
  | p :: ps, c :: cs => p == c && listHasPre ps cs

/-- Does `pat` occur contiguously anywhere in `s`?  This is SQL
`s LIKE concat(percent, pat, percent)` for a pattern with no wildcard
characters (the normalized neighborhood input has its underscores already
replaced by spaces). -/
def listContainsSub (pat s : List Char) : Bool :=
  match s with
  | [] => pat.isEmpty
  | _ :: cs => listHasPre pat s || listContainsSub pat cs

/-- `ORDER BY nd.period_end DESC LIMIT 1` over the filtered rows: the row with
the largest `period_end` (on ties SQLite returns an unspecified row; this
model deterministically keeps the earliest stored one). -/
def latestRow : List HistRow → Option HistRow
  | [] => none
  | r :: rs =>
    match latestRow rs with
    | none => some r
    | some best => if best.period_end > r.period_end then some best else some r

/-- Row filter of the exact-match query (source lines 421-458): metric type,
fixed property type, `homes_sold ≥ 5`, lower-cased city equality when a city
is supplied, and lower-cased neighborhood-name equality against the
normalized input. -/
def histExactFilter (metric : String) (cityLower : Option String)
    (nnNormalized : String) (r : HistRow) : Bool :=
  r.metric_type == metric &&
  r.property_type == "Single Family Residential" &&
  r.homes_sold ≥ 5 &&
  (match cityLower with
   | some c => pyLower r.city == c
   | none => true) &&
  pyLower r.neighborhood_name == nnNormalized

/-- Row filter of the fallback LIKE query (source lines 470-489): as the
exact filter but with the neighborhood matched as a substring. -/
def histLikeFilter (metric : String) (cityLower : Option String)
    (nnNormalized : String) (r : HistRow) : Bool :=
  r.metric_type == metric &&
  r.property_type == "Single Family Residential" &&
  r.homes_sold ≥ 5 &&
  (match cityLower with
   | some c => pyLower r.city == c
   | none => true) &&
  listContainsSub nnNormalized.data (pyLower r.neighborhood_name).data

/-- The `fetch_historical_appreciation_metric` function (source lines
384-510) over an in-memory store standing for `neighborhood_analysis.db`.
Falsy metric or neighborhood name gives `None`; the metric must be in the
allow-list; the exact query runs first and its result is used when the found
value is non-NULL; otherwise the LIKE query runs; the latest period wins in
both.  A lookup failure is `None`, never an exception (the source catches
all exceptions and returns `None`). -/
def fetch_historical_appreciation_metric (neighborhood_name city_name
    metric_to_fetch : Option String) (store : List HistRow) : Option ℚ :=
  if !strTruthy metric_to_fetch || !strTruthy neighborhood_name then none
  else
    let metric := metric_to_fetch.getD ""
    if metric ∉ valid_metrics then none
    else
      let nnNormalized := pyReplaceChar '_' ' ' (pyLower (neighborhood_name.getD ""))
      let cityLower := if strTruthy city_name then some (pyLower (city_name.getD "")) else none
      let exactHit := latestRow (store.filter (histExactFilter metric cityLower nnNormalized))
      match exactHit with
      | some r =>
        match r.value with
        | some v => some v
        | none =>
          match latestRow (store.filter (histLikeFilter metric cityLower nnNormalized)) with
          | some rl => rl.value
          | none => none
      | none =>
        match latestRow (store.filter (histLikeFilter metric cityLower nnNormalized)) with
        | some rl => rl.value
        | none => none

/-- One value of the `neighborhood_appreciation_data` JSON map: the optional
`historical_appreciation` field (outer `none` = field absent, `some none` =
present but `float()` raises `ValueError` on it, `some (some r)` = parses to
`r`) and the optional `long_term_outlook` field.  Entries are modelled as
non-empty JSON objects, which are truthy in Python. -/
structure HoodData where
  historical_appreciation : Option (Option ℚ)
  long_term_outlook : Option String
deriving DecidableEq

/-- Python `dict.get(key)` over the JSON configuration map. -/
def config_get (config : List (String × HoodData)) (key : String) : Option HoodData :=
  (config.find? (fun p => p.1 == key)).map (fun p => p.2)

/-- Neighborhood lookup of the static configuration tier (source lines
560-565): the exact key first, then, if the name contains an underscore, the
underscore→space variant, then, if the original name contains a space, the
space→underscore variant. -/
def config_lookup_hood (config : List (String × HoodData)) (nn : String) :
    Option HoodData :=
  match config_get config nn with
  | some h => some h
  | none =>
    match (if nn.data.contains '_' then config_get config (pyReplaceChar '_' ' ' nn) else none) with
    | some h => some h
    | none =>
      if nn.data.contains ' ' then config_get config (pyReplaceChar ' ' '_' nn) else none

/-- Appreciation-rate resolution of `calculate_appreciation_returns` (source
lines 532-626), producing the effective annual appreciation rate in percent
together with `market_outlook` and `source_of_data_message`.

Step 1 (historical tier) runs only when the fetch flag is set AND the metric
name AND the db path AND the target city are all truthy (source line 538).
Step 2 (static configuration tier) runs only when step 1 produced nothing:
the specific neighborhood first (when the config map and the name are
truthy), then the "default" entry (when the config map is truthy).  Step 3:
a manual rate always wins, applied last and unconditionally.  Step 4: with
no rate resolved, the source evaluates `SCRIPT_DEFAULTS.get("appreciation_rate")`
(line 615); `SCRIPT_DEFAULTS` is a local variable of `parse_arguments` (line
82) with no module-level binding, so Python raises `NameError` there and the
hardcoded `0.0` fallback of line 623 is unreachable. -/
def resolve_effective_appreciation_rate
    (fetch_real_data_flag : Bool)
    (use_historical_metric_name historical_db_path target_city_for_historical : Option String)
    (store : List HistRow)
    (neighborhood_appreciation_config : List (String × HoodData))
    (neighborhood_name : Option String)
    (manual_appreciation_rate : Option ℚ) : Except PyError (ℚ × String × String) :=
  let step1 : Option (ℚ × String × String) :=
    if fetch_real_data_flag && strTruthy use_historical_metric_name &&
        strTruthy historical_db_path && strTruthy target_city_for_historical then
      match fetch_historical_appreciation_metric neighborhood_name
          target_city_for_historical use_historical_metric_name store with
      | some v => some (v, "historical_db",
          "Historical DB (" ++ use_historical_metric_name.getD "" ++ ")")
      | none => none
    else none
  let step2 : Option (ℚ × String × String) :=
    match step1 with
    | some r => some r
    | none =>
      let specific : Option (ℚ × String × String) :=
        if !neighborhood_appreciation_config.isEmpty && strTruthy neighborhood_name then
          match config_lookup_hood neighborhood_appreciation_config (neighborhood_name.getD "") with
          | some hood =>
            match hood.historical_appreciation with
            | some (some rate) => some (rate, hood.long_term_outlook.getD "N/A (from JSON)",
                "JSON Config (\x27" ++ neighborhood_name.getD "" ++ "\x27)")
            | _ => none
          | none => none
        else none
      match specific with
      | some r => some r
      | none =>
        if !neighborhood_appreciation_config.isEmpty then
          match config_get neighborhood_appreciation_config "default" with
          | some hood =>
            match hood.historical_appreciation with
            | some (some rate) => some (rate, hood.long_term_outlook.getD "N/A (from JSON default)",
                "JSON Config (default)")
            | _ => none
          | none => none
        else none
  match manual_appreciation_rate with
  | some m => Except.ok (m, "manual_override", "CLI Manual Rate Override")
  | none =>
    match step2 with
    | some r => Except.ok r
    | none => Except.error (PyError.nameError "SCRIPT_DEFAULTS")

/-- The `score_cashflow` bucket function (source lines 855-862). -/
def score_cashflow (cf_monthly : ℚ) : ℚ × String :=
  if cf_monthly > 300 then (5/2, "Excellent")
  else if cf_monthly > 100 then (3/2, "Good")
  else if cf_monthly > 0 then (1/2, "Fair")
  else if cf_monthly = 0 then (0, "Neutral")
  else if cf_monthly > -100 then (-(1/2), "Poor")
  else if cf_monthly > -300 then (-(3/2), "Very Poor")
  else (-(5/2), "Extremely Poor")

/-- The `score_coc_roi` bucket function (source lines 864-870). -/
def score_coc_roi (coc : ℚ) : ℚ × String :=
  if coc > 12 then (5/2, "Excellent")
  else if coc > 8 then (3/2, "Good")
  else if coc > 5 then (1/2, "Fair")
  else if coc > 2 then (0, "Neutral")
  else if coc ≥ 0 then (-(1/2), "Poor")
  else (-(3/2), "Very Poor")

/-- The `score_cap_rate` bucket function (source lines 872-878): neutral 0
when dynamic CapEx is off or the cap rate is unavailable. -/
def score_cap_rate (cap : Option ℚ) (is_dynamic_capex : Bool) : ℚ × String :=
  match cap, is_dynamic_capex with
  | some c, true =>
    if c > 7 then (2, "Excellent")
    else if c > 11/2 then (1, "Good")
    else if c > 4 then (0, "Fair")
    else if c > 5/2 then (-1, "Poor")
    else (-2, "Very Poor")
  | _, _ => (0, "N/A (Dynamic CapEx off or N/A)")

/-- The `score_annualized_total_roi` bucket function (source lines 880-886). -/
def score_annualized_total_roi (annual_roi : ℚ) : ℚ × String :=
  if annual_roi > 15 then (2, "Excellent")
  else if annual_roi > 10 then (1, "Good")
  else if annual_roi > 7 then (1/2, "Fair")
  else if annual_roi > 4 then (0, "Neutral")
  else if annual_roi ≥ 0 then (-(1/2), "Poor")
  else (-1, "Very Poor")

/-- The score normalization of `run_analysis_and_print` (source lines
916-917): map the summed score from the empirical range [-7, 9] linearly
onto [0, 10] (the degenerate-range guard is kept as written) and clamp. -/
def normalized_score (overall_score : ℚ) : ℚ :=
  let ns := if ((9 : ℚ) - (-7)) ≠ 0 then ((overall_score - (-7)) / (9 - (-7))) * 10 else 0
  max 0 (min 10 ns)

/-- The qualitative rating thresholds (source lines 919-923). -/
def overall_rating (ns : ℚ) : String :=
  if ns ≥ 17/2 then "Excellent Investment Prospect!"
  else if ns ≥ 13/2 then "Good Investment Prospect"
  else if ns ≥ 4 then "Fair Investment Prospect, Potential Upsides"
  else if ns ≥ 2 then "Marginal Investment, Consider Carefully"
  else "Poor Investment Prospect"

/-- The overall deal score of `run_analysis_and_print` (source lines
888-917): the four metric scores summed, then normalized. -/
def overall_investment_score (cf coc : ℚ) (cap : Option ℚ) (is_dynamic : Bool)
    (annual_roi : ℚ) : ℚ :=
  normalized_score ((score_cashflow cf).1 + (score_coc_roi coc).1 +
    (score_cap_rate cap is_dynamic).1 + (score_annualized_total_roi annual_roi).1)

/-- Helper projection: the financial components of a normally returned
non-`None` result. -/
def fcOk : Except PyError (Option FinComponents) → Option FinComponents
  | Except.ok o => o
  | Except.error _ => none

/-- The monthly reserve that `calculate_capex_reserves` assigns to the roof
component. -/
def roof_monthly_reserve (purchase_price : ℚ) (sqft : Option ℚ) (age : ℤ)
    (cond : String) : Option ℚ :=
  ((calculate_capex_reserves purchase_price sqft age cond).components.find?
    (fun p => p.1 == "roof")).map (fun p => p.2.monthly_reserve)

/-- Geometric-growth bound used for full amortization: for a positive rate
`x`, `(1+x)^n - 1 ≤ n·x·(1+x)^n`. -/
theorem geom_growth_bound (x : ℚ) (hx : 0 < x) :
    ∀ n : ℕ, (1 + x) ^ n - 1 ≤ n * x * (1 + x) ^ n := by
  intro n
  induction n with
  | zero => simp
  | succ n ih =>
    have hy : (1 : ℚ) ≤ (1 + x) ^ n := one_le_pow₀ (by linarith)
    have h1 : ((1 + x) ^ n - 1) * (1 + x) ≤ (n * x * (1 + x) ^ n) * (1 + x) :=
      mul_le_mul_of_nonneg_right ih (by linarith)
    have h2 : x ≤ x * ((1 + x) ^ n * (1 + x)) := by
      have : (1 : ℚ) ≤ (1 + x) ^ n * (1 + x) := by nlinarith
      exact le_mul_of_one_le_right hx.le this
    rw [pow_succ]
    push_cast
    nlinarith

/-- C5: for every positive principal, nonnegative annual rate and positive
term, the monthly payment times the number of payments (`term·12`) is at
least the principal: the loan amortizes fully.  Over exact rationals the
inequality holds with no tolerance needed. -/
theorem mortgage_amortizes (principal annual_rate_percent : ℚ) (term_years : ℕ)
    (hP : 0 < principal) (hr : 0 ≤ annual_rate_percent) (ht : 0 < term_years) :
    principal ≤ calculate_mortgage_payment principal annual_rate_percent term_years *
      ((term_years * 12 : ℕ) : ℚ) := by
  have hn : (0 : ℚ) < ((term_years * 12 : ℕ) : ℚ) := by
    exact_mod_cast Nat.pos_of_ne_zero (by omega)
  simp only [calculate_mortgage_payment]
  rw [if_neg (not_le.mpr hP)]
  by_cases h0 : (annual_rate_percent / 100) / 12 = 0
  · rw [if_pos h0, if_pos (by omega : term_years * 12 > 0)]
    rw [div_mul_cancel₀ _ (ne_of_gt hn)]
  · rw [if_neg h0]
    have hx : 0 < (annual_rate_percent / 100) / 12 := by
      rcases lt_or_eq_of_le hr with h | h
      · positivity
      · exact absurd (by rw [← h]; norm_num) h0
    set x := (annual_rate_percent / 100) / 12 with hxdef
    set n : ℕ := term_years * 12 with hndef
    have hy1 : (1 : ℚ) < (1 + x) ^ n := one_lt_pow₀ (by linarith) (by omega)
    have hgeom := geom_growth_bound x hx n
    have hden : (0 : ℚ) < (1 + x) ^ n - 1 := by linarith
    rw [div_mul_eq_mul_div, mul_assoc]
    rw [le_div_iff₀ hden]
    nlinarith [mul_le_mul_of_nonneg_left hgeom hP.le]

/-- Witness for C5 at the scenario-A loan: principal 320000, rate 6.5,
term 30. -/
theorem mortgage_amortizes_witness :
    (0 : ℚ) < 320000 ∧ (0 : ℚ) ≤ 13/2 ∧ 0 < 30 ∧
    (320000 : ℚ) ≤ calculate_mortgage_payment 320000 (13/2) 30 * ((30 * 12 : ℕ) : ℚ) :=
  ⟨by norm_num, by norm_num, by norm_num,
    mortgage_amortizes 320000 (13/2) 30 (by norm_num) (by norm_num) (by norm_num)⟩

/-- C1: when the historical tier is disabled, the static configuration map is
empty and no manual rate is given, the resolution does NOT fall back to a
hardcoded 0.0% — it raises `NameError` on the `SCRIPT_DEFAULTS` reference of
source line 615 (`SCRIPT_DEFAULTS` is local to `parse_arguments`), so the
claimed hardcoded fallback of line 623 is unreachable. -/
theorem appreciation_rate_fallback_raises (metric db_path city : Option String)
    (store : List HistRow) (nn : Option String) :
    resolve_effective_appreciation_rate false metric db_path city store [] nn none =
      Except.error (PyError.nameError "SCRIPT_DEFAULTS") := rfl

/-- C7 (amended): a missing or non-positive purchase price makes
`calculate_financial_components` return `None` normally (no exception is
raised; the model value `Except.ok Option.none`), producing no financial
components. -/
theorem invalid_price_returns_no_components
    (purchase_price : Option ℚ) (tax : Option String) (rent : Option ℚ)
    (dp rate : ℚ) (term : ℕ) (ins : Option ℚ) (misc vac mgmt maint cappct util : ℚ)
    (dyn : Bool) (age : ℤ) (cond : String) (sqft : Option ℚ)
    (h : purchase_price = none ∨ ∃ p, purchase_price = some p ∧ p ≤ 0) :
    calculate_financial_components purchase_price tax rent dp rate term ins misc vac
      mgmt maint cappct util dyn age cond sqft = Except.ok none := by
  rcases h with h | ⟨p, hp, hple⟩
  · subst h; rfl
  · subst hp
    simp only [calculate_financial_components]
    rw [if_pos hple]

/-- Witness for C7's amended claim at a missing price. -/
theorem invalid_price_returns_no_components_witness :
    calculate_financial_components none none none 0 0 30 none 0 0 0 0 0 0 false 20
      "good" none = Except.ok none :=
  invalid_price_returns_no_components none none none 0 0 30 none 0 0 0 0 0 0 false 20
    "good" none (Or.inl rfl)

/-- C7 counterexample: at purchase price 0 the function returns normally with
`None` (`Except.ok Option.none`); it does not raise any error — a raised
exception would be an `Except.error` value. -/
theorem invalid_price_no_exception :
    calculate_financial_components (some 0) none none 0 0 30 none 0 0 0 0 0 0 false 20
      "good" none = Except.ok none := by
  simp only [calculate_financial_components]
  rw [if_pos (le_refl (0 : ℚ))]

/-- C6 counterexample: with square_feet 1500, age 20, condition good, the
roof monthly reserve is exactly 121/4 = 30.25, which is not within 1 dollar
of the claimed ≈37.81. -/
theorem roof_reserve_differs_from_claim :
    roof_monthly_reserve 400000 (some 1500) 20 "good" = some (121/4) ∧
    ¬ |(121/4 : ℚ) - 3781/100| < 1 := by
  constructor
  · simp +decide [roof_monthly_reserve, calculate_capex_reserves, capex_component_reserve,
      CAPEX_COMPONENTS, condition_multipliers_get, get_age_multiplier, pyLower]
    norm_num
  · rw [abs_sub_lt_iff]
    norm_num

/-- C6 (amended): the roof component's monthly reserve on those inputs equals
(5.5·1500)·1.0·1.1/25/12 = 30.25 exactly. -/
theorem roof_reserve_exact :
    roof_monthly_reserve 400000 (some 1500) 20 "good" = some (121/4) ∧
    ((11/2 : ℚ) * 1500) * 1 * (11/10) / 25 / 12 = 121/4 := by
  constructor
  · simp +decide [roof_monthly_reserve, calculate_capex_reserves, capex_component_reserve,
      CAPEX_COMPONENTS, condition_multipliers_get, get_age_multiplier, pyLower]
    norm_num
  · norm_num

/-- C8 counterexample: an annualized total ROI above 15 scores 2.0 with label
"Excellent", not the claimed 2.5. -/
theorem annualized_roi_score_is_two :
    score_annualized_total_roi 16 = (2, "Excellent") ∧ (2 : ℚ) ≠ 5/2 := by
  constructor
  · rw [score_annualized_total_roi, if_pos (by norm_num : (16 : ℚ) > 15)]
  · norm_num

/-- C8 (amended): every annualized total ROI above 15 scores 2.0 with label
"Excellent"; the overall deal score sums the four metric scores and maps the
sum linearly from [-7, 9] onto [0, 10], clamped to those bounds; the
qualitative label thresholds are ≥8.5 excellent, ≥6.5 good, ≥4 fair,
≥2 marginal, else poor. -/
theorem deal_scoring_policy :
    (∀ v : ℚ, 15 < v → score_annualized_total_roi v = (2, "Excellent")) ∧
    (∀ cf coc : ℚ, ∀ cap : Option ℚ, ∀ dyn : Bool, ∀ roi : ℚ,
      overall_investment_score cf coc cap dyn roi =
        normalized_score ((score_cashflow cf).1 + (score_coc_roi coc).1 +
          (score_cap_rate cap dyn).1 + (score_annualized_total_roi roi).1)) ∧
    (∀ s : ℚ,
      (s ≤ -7 → normalized_score s = 0) ∧
      (9 ≤ s → normalized_score s = 10) ∧
      (-7 ≤ s → s ≤ 9 → normalized_score s = (s + 7) * 10 / 16) ∧
      0 ≤ normalized_score s ∧ normalized_score s ≤ 10) ∧
    (∀ ns : ℚ,
      (17/2 ≤ ns → overall_rating ns = "Excellent Investment Prospect!") ∧
      (13/2 ≤ ns → ns < 17/2 → overall_rating ns = "Good Investment Prospect") ∧
      (4 ≤ ns → ns < 13/2 → overall_rating ns = "Fair Investment Prospect, Potential Upsides") ∧
      (2 ≤ ns → ns < 4 → overall_rating ns = "Marginal Investment, Consider Carefully") ∧
      (ns < 2 → overall_rating ns = "Poor Investment Prospect")) := by
  refine ⟨?_, ?_, ?_, ?_⟩
  · intro v hv
    rw [score_annualized_total_roi, if_pos (show v > 15 from hv)]
  · intro cf coc cap dyn roi
    rfl
  · intro s
    have hcond : ((9 : ℚ) - (-7)) ≠ 0 := by norm_num
    refine ⟨?_, ?_, ?_, ?_, ?_⟩
    · intro hs
      rw [normalized_score]
      simp only [if_pos hcond]
      rw [min_eq_right (by linarith), max_eq_left (by linarith)]
    · intro hs
      rw [normalized_score]
      simp only [if_pos hcond]
      rw [min_eq_left (by linarith), max_eq_right (by norm_num)]
    · intro h1 h2
      rw [normalized_score]
      simp only [if_pos hcond]
      rw [min_eq_right (by linarith), max_eq_right (by linarith)]
      ring
    · exact le_max_left 0 _
    · exact max_le (by norm_num) (min_le_left _ _)
  · intro ns
    refine ⟨?_, ?_, ?_, ?_, ?_⟩
    · intro h; rw [overall_rating, if_pos h]
    · intro h1 h2
      rw [overall_rating, if_neg (not_le.mpr h2), if_pos h1]
    · intro h1 h2
      rw [overall_rating, if_neg (by linarith), if_neg (not_le.mpr h2), if_pos h1]
    · intro h1 h2
      rw [overall_rating, if_neg (by linarith), if_neg (by linarith),
        if_neg (not_le.mpr h2), if_pos h1]
    · intro h
      rw [overall_rating, if_neg (by linarith), if_neg (by linarith),
        if_neg (by linarith), if_neg (not_le.mpr h)]

/-- Witness for C8's amended claim: concrete instantiations of each part. -/
theorem deal_scoring_policy_witness :
    score_annualized_total_roi 16 = (2, "Excellent") ∧
    normalized_score 8 = (8 + 7) * 10 / 16 ∧
    overall_rating 9 = "Excellent Investment Prospect!" :=
  ⟨deal_scoring_policy.1 16 (by norm_num),
    (deal_scoring_policy.2.2.1 8).2.2.1 (by norm_num) (by norm_num),
    (deal_scoring_policy.2.2.2 9).1 (by norm_num)⟩

/-- C2: resolver precedence.  (i) a manual rate always wins, whatever the
other tiers hold; (ii) with no manual rate, a successful historical lookup
(all four step-1 gates truthy) wins over the configuration; (iii) with
neither, a specific configuration entry wins; (iv) with no specific entry,
the "default" configuration entry wins over the hardcoded fallback. -/
theorem resolver_precedence (metric db_path city : Option String)
    (store : List HistRow) (config : List (String × HoodData)) (nn : Option String) :
    (∀ (fetch : Bool) (manual : Option ℚ) (m : ℚ), manual = some m →
      resolve_effective_appreciation_rate fetch metric db_path city store config nn manual =
        Except.ok (m, "manual_override", "CLI Manual Rate Override")) ∧
    (∀ v : ℚ, strTruthy metric = true → strTruthy db_path = true → strTruthy city = true →
      fetch_historical_appreciation_metric nn city metric store = some v →
      resolve_effective_appreciation_rate true metric db_path city store config nn none =
        Except.ok (v, "historical_db", "Historical DB (" ++ metric.getD "" ++ ")")) ∧
    (∀ (fetch : Bool) (s : String) (hood : HoodData) (r : ℚ),
      nn = some s → s.isEmpty = false → config.isEmpty = false →
      fetch_historical_appreciation_metric nn city metric store = none →
      config_lookup_hood config s = some hood →
      hood.historical_appreciation = some (some r) →
      resolve_effective_appreciation_rate fetch metric db_path city store config nn none =
        Except.ok (r, hood.long_term_outlook.getD "N/A (from JSON)",
          "JSON Config (\x27" ++ s ++ "\x27)")) ∧
    (∀ (fetch : Bool) (s : String) (hood : HoodData) (r : ℚ),
      nn = some s → s.isEmpty = false → config.isEmpty = false →
      fetch_historical_appreciation_metric nn city metric store = none →
      config_lookup_hood config s = none →
      config_get config "default" = some hood →
      hood.historical_appreciation = some (some r) →
      resolve_effective_appreciation_rate fetch metric db_path city store config nn none =
        Except.ok (r, hood.long_term_outlook.getD "N/A (from JSON default)",
          "JSON Config (default)")) := by
  refine ⟨?_, ?_, ?_, ?_⟩
  · intro fetch manual m hm
    subst hm
    rfl
  · intro v hmt hdt hct hfetch
    simp only [resolve_effective_appreciation_rate, hmt, hdt, hct, hfetch,
      Bool.and_true, Bool.true_and, if_true]
  · intro fetch s hood r hn hs hconf hfetch hlook hrate
    subst hn
    simp only [resolve_effective_appreciation_rate, Option.getD_some, hfetch, hconf,
      hlook, hrate, strTruthy, hs, Bool.not_false, Bool.and_true, Bool.true_and,
      ite_self, if_true]
  · intro fetch s hood r hn hs hconf hfetch hlook hdef hrate
    subst hn
    simp only [resolve_effective_appreciation_rate, Option.getD_some, hfetch, hconf,
      hlook, hdef, hrate, strTruthy, hs, Bool.not_false, Bool.and_true, Bool.true_and,
      ite_self, if_true]

/-- Witness for C2: the manual tier at a concrete input. -/
theorem resolver_precedence_witness :
    resolve_effective_appreciation_rate true none none none [] [] none (some 4) =
      Except.ok (4, "manual_override", "CLI Manual Rate Override") :=
  (resolver_precedence none none none [] [] none).1 true (some 4) 4 rfl

/-- A non-empty row list always has a latest row. -/
theorem latestRow_cons_some (a : HistRow) (as : List HistRow) :
    ∃ r, latestRow (a :: as) = some r := by
  simp only [latestRow]
  cases latestRow as with
  | none => exact ⟨a, rfl⟩
  | some best =>
    by_cases hb : best.period_end > a.period_end
    · exact ⟨best, if_pos hb⟩
    · exact ⟨a, if_neg hb⟩

/-- The latest row is one of the rows. -/
theorem latestRow_mem {l : List HistRow} {r : HistRow} (h : latestRow l = some r) :
    r ∈ l := by
  induction l generalizing r with
  | nil => simp [latestRow] at h
  | cons a as ih =>
    simp only [latestRow] at h
    split at h
    next hl =>
      injection h with h
      subst h
      exact List.mem_cons_self a as
    next best hl =>
      split at h
      · injection h with h
        subst h
        exact List.mem_cons_of_mem _ (ih hl)
      · injection h with h
        subst h
        exact List.mem_cons_self _ _

/-- The latest row has the largest period end among the rows. -/
theorem latestRow_ge {l : List HistRow} {r : HistRow} (h : latestRow l = some r) :
    ∀ s ∈ l, s.period_end ≤ r.period_end := by
  induction l generalizing r with
  | nil => simp [latestRow] at h
  | cons a as ih =>
    intro s hs
    simp only [latestRow] at h
    split at h
    next hl =>
      injection h with h
      subst h
      cases as with
      | nil =>
        rw [List.mem_singleton] at hs
        exact hs ▸ le_refl _
      | cons b bs =>
        obtain ⟨r2, hr2⟩ := latestRow_cons_some b bs
        rw [hr2] at hl
        exact absurd hl (by simp)
    next best hl =>
      split at h
      next hb =>
        injection h with h
        subst h
        rcases List.mem_cons.mp hs with rfl | hmem
        · exact le_of_lt hb
        · exact ih hl s hmem
      next hb =>
        injection h with h
        subst h
        rcases List.mem_cons.mp hs with rfl | hmem
        · exact le_refl _
        · exact le_trans (ih hl s hmem) (not_lt.mp hb)

/-- Every row passing the exact or the LIKE filter matches the metric, the
fixed property type, the reliability minimum, the city (when one is
filtered) and the neighborhood (exactly, or as a substring). -/
theorem hist_filter_props (m : String) (cityL : Option String) (nnN : String)
    (r : HistRow)
    (hex : histExactFilter m cityL nnN r = true ∨ histLikeFilter m cityL nnN r = true) :
    r.metric_type = m ∧ r.property_type = "Single Family Residential" ∧
    5 ≤ r.homes_sold ∧ (∀ c, cityL = some c → pyLower r.city = c) ∧
    (pyLower r.neighborhood_name = nnN ∨
      listContainsSub nnN.data (pyLower r.neighborhood_name).data = true) := by
  rcases hex with hf | hf
  · simp only [histExactFilter, Bool.and_eq_true, beq_iff_eq, decide_eq_true_eq] at hf
    obtain ⟨⟨⟨⟨h1, h2⟩, h3⟩, h4⟩, h5⟩ := hf
    refine ⟨h1, h2, h3, ?_, Or.inl h5⟩
    intro c hc
    rw [hc] at h4
    simpa using h4
  · simp only [histLikeFilter, Bool.and_eq_true, beq_iff_eq, decide_eq_true_eq] at hf
    obtain ⟨⟨⟨⟨h1, h2⟩, h3⟩, h4⟩, h5⟩ := hf
    refine ⟨h1, h2, h3, ?_, Or.inr h5⟩
    intro c hc
    rw [hc] at h4
    simpa using h4

/-- A successful historical lookup returns the value of a stored row passing
all the query filters. -/
theorem fetch_historical_sound (nn city metric : Option String)
    (store : List HistRow) (v : ℚ)
    (h : fetch_historical_appreciation_metric nn city metric store = some v) :
    ∃ r, r ∈ store ∧ r.value = some v ∧ r.metric_type = metric.getD "" ∧
      r.property_type = "Single Family Residential" ∧ 5 ≤ r.homes_sold ∧
      (strTruthy city = true → pyLower r.city = pyLower (city.getD "")) ∧
      (pyLower r.neighborhood_name = pyReplaceChar '_' ' ' (pyLower (nn.getD "")) ∨
        listContainsSub (pyReplaceChar '_' ' ' (pyLower (nn.getD ""))).data
          (pyLower r.neighborhood_name).data = true) := by
  simp only [fetch_historical_appreciation_metric] at h
  split at h
  · exact absurd h (by simp)
  split at h
  · exact absurd h (by simp)
  set m := metric.getD "" with hm
  set nnN := pyReplaceChar '_' ' ' (pyLower (nn.getD "")) with hnn
  set cityL := if strTruthy city = true then some (pyLower (city.getD "")) else none with hcl
  have hfin : ∃ r, (r ∈ store.filter (histExactFilter m cityL nnN) ∨
      r ∈ store.filter (histLikeFilter m cityL nnN)) ∧ r.value = some v := by
    split at h
    next r0 heq =>
      split at h
      next v0 hval =>
        injection h with h
        exact ⟨r0, Or.inl (latestRow_mem heq), by rw [hval, h]⟩
      next hval =>
        split at h
        next rl heql => exact ⟨rl, Or.inr (latestRow_mem heql), h⟩
        next => exact absurd h (by simp)
    next heq =>
      split at h
      next rl heql => exact ⟨rl, Or.inr (latestRow_mem heql), h⟩
      next => exact absurd h (by simp)
  obtain ⟨r, hmem, hval⟩ := hfin
  have hfilter : r ∈ store ∧
      (histExactFilter m cityL nnN r = true ∨ histLikeFilter m cityL nnN r = true) := by
    rcases hmem with hmem | hmem
    · obtain ⟨hs, hf⟩ := List.mem_filter.mp hmem
      exact ⟨hs, Or.inl hf⟩
    · obtain ⟨hs, hf⟩ := List.mem_filter.mp hmem
      exact ⟨hs, Or.inr hf⟩
  obtain ⟨h1, h2, h3, h4, h5⟩ := hist_filter_props m cityL nnN r hfilter.2
  refine ⟨r, hfilter.1, hval, h1, h2, h3, ?_, h5⟩
  intro hc
  exact h4 _ (by rw [hcl, if_pos hc])

/-- C9 (amended): (a) with a falsy target city the historical tier is never
attempted — the resolution is independent of the historical store; (b) with
the fetch flag set and metric name, db path and target city all truthy, a
successful lookup is used (and wins when no manual rate is given); (c) any
value a lookup returns comes from a stored row matching the metric, the
fixed property type, at least 5 homes sold, the city filter when present,
and the normalized neighborhood name exactly or as a substring; (d) the
query picks a stored row with the most recent period end. -/
theorem historical_tier_requires_city :
    (∀ (fetch : Bool) (metric db_path city : Option String) (store : List HistRow)
        (config : List (String × HoodData)) (nn : Option String) (manual : Option ℚ),
      strTruthy city = false →
      resolve_effective_appreciation_rate fetch metric db_path city store config nn manual =
        resolve_effective_appreciation_rate fetch metric db_path city [] config nn manual) ∧
    (∀ (metric db_path city nn : Option String) (store : List HistRow)
        (config : List (String × HoodData)) (v : ℚ),
      strTruthy metric = true → strTruthy db_path = true → strTruthy city = true →
      fetch_historical_appreciation_metric nn city metric store = some v →
      resolve_effective_appreciation_rate true metric db_path city store config nn none =
        Except.ok (v, "historical_db", "Historical DB (" ++ metric.getD "" ++ ")")) ∧
    (∀ (nn city metric : Option String) (store : List HistRow) (v : ℚ),
      fetch_historical_appreciation_metric nn city metric store = some v →
      ∃ r, r ∈ store ∧ r.value = some v ∧ r.metric_type = metric.getD "" ∧
        r.property_type = "Single Family Residential" ∧ 5 ≤ r.homes_sold ∧
        (strTruthy city = true → pyLower r.city = pyLower (city.getD "")) ∧
        (pyLower r.neighborhood_name = pyReplaceChar '_' ' ' (pyLower (nn.getD "")) ∨
          listContainsSub (pyReplaceChar '_' ' ' (pyLower (nn.getD ""))).data
            (pyLower r.neighborhood_name).data = true)) ∧
    (∀ (rows : List HistRow) (r : HistRow), latestRow rows = some r →
      r ∈ rows ∧ ∀ s ∈ rows, s.period_end ≤ r.period_end) := by
  refine ⟨?_, ?_, ?_, ?_⟩
  · intro fetch metric db_path city store config nn manual h
    simp [resolve_effective_appreciation_rate, h]
  · intro metric db_path city nn store config v hmt hdt hct hfetch
    simp only [resolve_effective_appreciation_rate, hmt, hdt, hct, hfetch,
      Bool.and_true, Bool.true_and, if_true]
  · intro nn city metric store v h
    exact fetch_historical_sound nn city metric store v h
  · intro rows r h
    exact ⟨latestRow_mem h, latestRow_ge h⟩

/-- Witness for C9's amended claim, part (a): with no city the resolution
ignores a store that would otherwise match. -/
theorem historical_tier_requires_city_witness :
    resolve_effective_appreciation_rate true
        (some "median_sale_price_5_year_cagr_appreciation") (some "nbhd.db") none
        [⟨"median_sale_price_5_year_cagr_appreciation", "Single Family Residential",
          12, "Denver", "Sloan Lake", 2024, some (6069/1000)⟩] [] none (some 2) =
      resolve_effective_appreciation_rate true
        (some "median_sale_price_5_year_cagr_appreciation") (some "nbhd.db") none
        [] [] none (some 2) :=
  historical_tier_requires_city.1 true
    (some "median_sale_price_5_year_cagr_appreciation") (some "nbhd.db") none
    [⟨"median_sale_price_5_year_cagr_appreciation", "Single Family Residential",
      12, "Denver", "Sloan Lake", 2024, some (6069/1000)⟩] [] none (some 2) rfl

/-- C9 counterexample: the historical tier is enabled (fetch flag, metric
name and db path all set) and the store holds a matching row — the
standalone lookup returns 6.069 for this neighborhood with no city — yet,
because no target city is supplied, the resolver never attempts the lookup
and resolves from the configuration default 3.5 instead. -/
theorem resolver_skips_historical_without_city :
    fetch_historical_appreciation_metric (some "sloan_lake") none
        (some "median_sale_price_5_year_cagr_appreciation")
        [⟨"median_sale_price_5_year_cagr_appreciation", "Single Family Residential",
          12, "Denver", "Sloan Lake", 2024, some (6069/1000)⟩] = some (6069/1000) ∧
    resolve_effective_appreciation_rate true
        (some "median_sale_price_5_year_cagr_appreciation") (some "nbhd.db") none
        [⟨"median_sale_price_5_year_cagr_appreciation", "Single Family Residential",
          12, "Denver", "Sloan Lake", 2024, some (6069/1000)⟩]
        [("default", ⟨some (some (7/2)), some "steady"⟩)] (some "sloan_lake") none =
      Except.ok (7/2, "steady", "JSON Config (default)") ∧
    (7/2 : ℚ) ≠ 6069/1000 := by
  refine ⟨?_, ?_, by norm_num⟩
  · simp +decide [fetch_historical_appreciation_metric, valid_metrics, strTruthy,
      histExactFilter, histLikeFilter, latestRow, pyLower, pyReplaceChar,
      List.filter]
  · simp +decide [resolve_effective_appreciation_rate, strTruthy, config_lookup_hood,
      config_get, pyReplaceChar, pyLower, List.find?]

/-- C4: with dynamic CapEx off, management, maintenance, CapEx and utilities
contributions are 0, the effective rent is the estimated rent unchanged, and
the expense total is exactly P&I + taxes + insurance + misc. -/
theorem flat_mode_expense_composition (p : ℚ) (hp : 0 < p)
    (tax : Option String) (rent : Option ℚ) (dp rate : ℚ) (term : ℕ)
    (ins : Option ℚ) (misc vac mgmt maint cappct util : ℚ) (age : ℤ)
    (cond : String) (sqft : Option ℚ) :
    ∃ c : FinComponents,
      calculate_financial_components (some p) tax rent dp rate term ins misc vac
        mgmt maint cappct util false age cond sqft = Except.ok (some c) ∧
      c.monthly_property_mgmt = 0 ∧ c.monthly_maintenance = 0 ∧
      c.monthly_capex = 0 ∧ c.utilities_monthly = 0 ∧
      c.effective_rent_after_vacancy = c.estimated_monthly_rent ∧
      c.misc_monthly_cost = misc ∧
      c.total_monthly_expenses =
        c.monthly_p_and_i + c.monthly_taxes + c.monthly_insurance + c.misc_monthly_cost := by
  simp only [calculate_financial_components]
  rw [if_neg (not_le.mpr hp)]
  refine ⟨_, rfl, ?_, ?_, ?_, ?_, ?_, ?_, ?_⟩ <;> simp

/-- Witness for C4 at the scenario-A inputs. -/
theorem flat_mode_expense_composition_witness :
    (0 : ℚ) < 400000 ∧
    ∃ c : FinComponents,
      calculate_financial_components (some 400000) (some "$4,800 / Annually") (some 2500)
        80000 (13/2) 30 (some 1200) 50 5 0 1 1 0 false 20 "good" (some 1400) =
        Except.ok (some c) ∧
      c.monthly_property_mgmt = 0 ∧ c.monthly_maintenance = 0 ∧
      c.monthly_capex = 0 ∧ c.utilities_monthly = 0 ∧
      c.effective_rent_after_vacancy = c.estimated_monthly_rent ∧
      c.misc_monthly_cost = 50 ∧
      c.total_monthly_expenses =
        c.monthly_p_and_i + c.monthly_taxes + c.monthly_insurance + c.misc_monthly_cost :=
  ⟨by norm_num, flat_mode_expense_composition 400000 (by norm_num)
    (some "$4,800 / Annually") (some 2500) 80000 (13/2) 30 (some 1200) 50 5 0 1 1 0
    20 "good" (some 1400)⟩

/-- C10 (amended): the CapEx-reserve computation is invariant under the letter
case of the condition string, and the financial-components computation is
invariant up to the verbatim `property_condition` passthrough field of its
returned dictionary — every computed quantity only sees `pyLower` of the
condition. -/
theorem condition_case_insensitive (c₁ c₂ : String) (h : pyLower c₁ = pyLower c₂)
    (price : Option ℚ) (tax : Option String) (rent : Option ℚ) (dp rate : ℚ)
    (term : ℕ) (ins : Option ℚ) (misc vac mgmt maint cappct util : ℚ) (dyn : Bool)
    (age : ℤ) (sqft : Option ℚ) (pp : ℚ) :
    calculate_capex_reserves pp sqft age c₁ = calculate_capex_reserves pp sqft age c₂ ∧
    calculate_financial_components price tax rent dp rate term ins misc vac mgmt
        maint cappct util dyn age c₁ sqft =
      Except.map (Option.map (fun c => { c with property_condition := c₁ }))
        (calculate_financial_components price tax rent dp rate term ins misc vac mgmt
          maint cappct util dyn age c₂ sqft) := by
  have hcap : ∀ q, calculate_capex_reserves q sqft age c₁ =
      calculate_capex_reserves q sqft age c₂ := by
    intro q
    simp only [calculate_capex_reserves, h]
  refine ⟨hcap pp, ?_⟩
  cases price with
  | none => rfl
  | some p =>
    simp only [calculate_financial_components]
    by_cases hple : p ≤ 0
    · rw [if_pos hple, if_pos hple]
      rfl
    · rw [if_neg hple, if_neg hple]
      rw [h, hcap p]
      rfl

/-- Witness for C10's amended claim at the case variants GOOD/good. -/
theorem condition_case_insensitive_witness :
    calculate_capex_reserves 100 none 0 "GOOD" = calculate_capex_reserves 100 none 0 "good" ∧
    calculate_financial_components (some 100) none none 0 0 0 none 0 0 0 0 0 0 true 0
        "GOOD" none =
      Except.map (Option.map (fun c => { c with property_condition := "GOOD" }))
        (calculate_financial_components (some 100) none none 0 0 0 none 0 0 0 0 0 0 true 0
          "good" none) :=
  condition_case_insensitive "GOOD" "good" (by decide) (some 100) none none 0 0 0 none
    0 0 0 0 0 0 true 0 none 100

/-- C10 counterexample: the returned dictionaries are not identical under a
case change of the condition — the `property_condition` field stores the
input verbatim ("GOOD" in one run, "good" in the other), so the two results
differ as values even though every computed quantity agrees. -/
theorem condition_case_changes_output :
    calculate_financial_components (some 100) none none 0 0 0 none 0 0 0 0 0 0 false 0
        "GOOD" none ≠
      calculate_financial_components (some 100) none none 0 0 0 none 0 0 0 0 0 0 false 0
        "good" none := by
  intro hEq
  have h1 : ∀ cond : String,
      (fcOk (calculate_financial_components (some 100) none none 0 0 0 none 0 0 0 0 0 0
        false 0 cond none)).map FinComponents.property_condition = some cond := by
    intro cond
    simp only [calculate_financial_components]
    rw [if_neg (by norm_num : ¬(100 : ℚ) ≤ 0)]
    rfl
  have h2 := congrArg (fun r => (fcOk r).map FinComponents.property_condition) hEq
  simp only [h1, Option.some.injEq] at h2
  exact absurd h2 (by decide)

/-- C3: scenario A — price 400000, down payment 80000, rate 6.5%, term 30
years, tax "$4,800 / Annually", rent 2500, misc 50, insurance 1200/year,
flat mode — produces loan 320000, P&I within a cent of 2022.62, taxes 400,
insurance 100, total expenses within a cent of 2572.62 and net cashflow
within a cent of −72.62. -/
theorem scenario_a_components :
    ∃ c : FinComponents,
      calculate_financial_components (some 400000) (some "$4,800 / Annually") (some 2500)
        80000 (13/2) 30 (some 1200) 50 5 0 1 1 0 false 20 "good" (some 1400) =
        Except.ok (some c) ∧
      c.loan_amount = 320000 ∧
      |c.monthly_p_and_i - 202262/100| < 1/100 ∧
      c.monthly_taxes = 400 ∧
      c.monthly_insurance = 100 ∧
      |c.total_monthly_expenses - 257262/100| < 1/100 ∧
      |c.net_monthly_cashflow - (-(7262/100))| < 1/100 := by
  simp only [calculate_financial_components]
  rw [if_neg (by norm_num : ¬(400000 : ℚ) ≤ 0)]
  refine ⟨_, rfl, ?_, ?_, ?_, ?_, ?_, ?_⟩
  · norm_num
  · rw [abs_sub_lt_iff]
    constructor <;> norm_num [calculate_mortgage_payment]
  · simp +decide [parse_tax_amount, strTruthy, findTaxGroup, taxGroupAt,
      takeDigitsCommas, takeDigits, isDigitOrComma, pyFloatParse, digitsVal]
    norm_num
  · norm_num
  · simp +decide [parse_tax_amount, strTruthy, findTaxGroup, taxGroupAt,
      takeDigitsCommas, takeDigits, isDigitOrComma, pyFloatParse, digitsVal]
    rw [abs_sub_lt_iff]
    constructor <;> norm_num [calculate_mortgage_payment]
  · simp +decide [parse_tax_amount, strTruthy, findTaxGroup, taxGroupAt,
      takeDigitsCommas, takeDigits, isDigitOrComma, pyFloatParse, digitsVal]
    rw [abs_lt]
    constructor <;> norm_num [calculate_mortgage_payment]
